import Mathlib

set_option linter.unusedVariables false

/-!
Verification of the revclarity claim-processing pipeline against its
natural-language specification.

The definitions below are a shallow embedding of the Python source under
src/backend/app: each Lean function mirrors one Python function, with the
database session replaced by explicit list-valued state, SQLAlchemy rows by
records, Python dicts by insertion-ordered association lists, and monetary
values (SQL Numeric / JSON numbers) by exact rationals.  Python truthiness
tests on optional strings and numbers are modelled explicitly.
-/

/-- Substring test: Python `needle in hay`. -/
def strContains (needle hay : String) : Bool :=
  decide (needle.toList <:+: hay.toList)

/-- Python str.lower(), modelled on the character list (ASCII case folding,
which covers every string the source compares). -/
def strLower (s : String) : String :=
  String.mk (s.toList.map Char.toLower)

/-- Claim lifecycle states, from models/claim.py (enum ClaimStatus). -/
inductive ClaimStatus where
  | draft
  | processing
  | submitted
  | approved
  | denied
  | paid
  | resubmitted
deriving DecidableEq, Repr

/-- One row of the medical_codes reference table (models/medical_code.py). -/
structure MedicalCode where
  code_value : String
  code_type : String
  description : String
deriving DecidableEq, Repr

/-- A code/description pair as produced by validate_codes and the vector
search (crud_medical_code.py returns dicts with keys code, description). -/
structure CodeDesc where
  code : String
  description : String
deriving DecidableEq, Repr

/-- Output shape of validate_codes: dict with keys cpt_codes, icd10_codes. -/
structure ValidatedCodes where
  cpt_codes : List CodeDesc
  icd10_codes : List CodeDesc
deriving DecidableEq, Repr

/-- Lookup in the Python dict comprehension
`code_map = {code.code_value: code for code in db_results}`.
Later entries overwrite earlier ones, so a lookup returns the last record
of db_results with the requested code_value. -/
def codeMapFind (db_results : List MedicalCode) (c : String) : Option MedicalCode :=
  (db_results.filter (fun r => r.code_value = c)).getLast?

/-- crud_medical_code.validate_codes: validates suggested codes against the
reference catalog.  CPT codes missing from the catalog are kept with a
placeholder description; ICD-10 codes missing from the catalog are dropped.
The catalog argument models the medical_codes table contents, and the
batched query `code_value.in_(all_suggested)` is the filter below. -/
def validate_codes (catalog : List MedicalCode)
    (suggested_cpt suggested_icd10 : List String) : ValidatedCodes :=
  let all_suggested := suggested_cpt ++ suggested_icd10
  if all_suggested.isEmpty then ⟨[], []⟩
  else
    let db_results := catalog.filter (fun r => all_suggested.contains r.code_value)
    let cpt_out := suggested_cpt.map (fun c =>
      match codeMapFind db_results c with
      | some r => ⟨r.code_value, r.description⟩
      | none => ⟨c, "AI Suggested Code (Unverified)"⟩)
    let icd_out := suggested_icd10.filterMap (fun c =>
      match codeMapFind db_results c with
      | some r => some (⟨r.code_value, r.description⟩ : CodeDesc)
      | none => none)
    ⟨cpt_out, icd_out⟩

/-- One row of the policy_benefits table (models/policy_benefit.py).
benefit_type is NOT NULL in the schema; the Numeric columns are nullable
and modelled as optional rationals. -/
structure PolicyBenefit where
  benefit_type : String
  cpt_code_match : Option String
  is_covered : Bool
  coverage_percent : Option ℚ
  co_pay_amount : Option ℚ
  deductible : Option ℚ
deriving DecidableEq, Repr

/-- The benefit filter in check_claim_eligibility:
Python `"visit" in b.benefit_type.lower()`. -/
def isVisitBenefit (b : PolicyBenefit) : Bool :=
  strContains "visit" (strLower b.benefit_type)

/-- crud_policy_benefit.check_claim_eligibility.  The benefits argument
models the patient's policy_benefits rows; service_codes is received but
(as in the source) not consulted.  `if found_benefit and
found_benefit.co_pay_amount:` is a Python truthiness test, false for a
missing benefit, a NULL co-pay and a zero co-pay. -/
def check_claim_eligibility (benefits : List PolicyBenefit)
    (service_codes : List String) : String × ℚ :=
  if benefits.isEmpty then ("Inactive - No Policy on File", 0)
  else
    let found_benefit := benefits.find? isVisitBenefit
    let patient_responsibility : ℚ :=
      match found_benefit with
      | some b =>
        match b.co_pay_amount with
        | some c => if c = 0 then 0 else c
        | none => 0
      | none => 0
    ("Active", patient_responsibility)

example : check_claim_eligibility [] ["99213"] = ("Inactive - No Policy on File", 0) := by
  decide

example :
    check_claim_eligibility
      [⟨"Office Visit", none, true, some 80, some 25, none⟩] [] = ("Active", 25) := by
  decide

example :
    validate_codes [⟨"99213", "CPT", "Office visit"⟩] ["99213", "X999"] ["A00"] =
      ⟨[⟨"99213", "Office visit"⟩, ⟨"X999", "AI Suggested Code (Unverified)"⟩], []⟩ := by
  decide

/-- A documents-table row (models/document.py).  parsed_text is the nullable
cached OCR text; document_purpose is the nullable purpose tag. -/
structure Doc where
  file_name : String
  file_path : String
  document_purpose : Option String
  parsed_text : Option String
deriving DecidableEq, Repr

/-- Python truthiness of an optional string: None and the empty string are
falsy, every other string is truthy. -/
def strTruthy : Option String → Bool
  | some s => !(s == "")
  | none => false

/-- tasks.get_or_parse_document_text.  The parse argument models the external
parsing service (parsing_service.parse_document_async) as a deterministic
map from file path to markdown text.  Returns the text, the updated document
row (the durable write of the cold path) and the number of external parse
calls performed (0 or 1).  The cache test `if doc.parsed_text:` is a Python
truthiness test, so an empty cached string does not count as cached. -/
def get_or_parse_document_text (parse : String → String) (doc : Doc) :
    String × Doc × Nat :=
  if strTruthy doc.parsed_text then (doc.parsed_text.getD "", doc, 0)
  else
    let parsed_text := parse doc.file_path
    (parsed_text, { doc with parsed_text := some parsed_text }, 1)

/-- Two consecutive calls of the parse-with-cache operation on the same
document, threading the updated row through: returns both texts and the
total number of external parse calls. -/
def parse_twice (parse : String → String) (doc : Doc) : String × String × Nat :=
  let r1 := get_or_parse_document_text parse doc
  let r2 := get_or_parse_document_text parse r1.2.1
  (r1.1, r2.1, r1.2.2 + r2.2.2)

/-- The text a document contributes to the pipeline (the value component of
get_or_parse_document_text). -/
def docText (parse : String → String) (d : Doc) : String :=
  (get_or_parse_document_text parse d).1

/-- Purpose key used by the orchestrator loop:
Python `purpose = doc.document_purpose or 'UNKNOWN'` (None and the empty
string fall back to UNKNOWN). -/
def purposeOf (d : Doc) : String :=
  match d.document_purpose with
  | some s => if s = "" then "UNKNOWN" else s
  | none => "UNKNOWN"

/-- Lookup in an insertion-ordered association list (a Python dict). -/
def lookupA (k : String) : List (String × String) → Option String
  | [] => none
  | (k₁, v) :: rest => if k₁ = k then some v else lookupA k rest

/-- Assignment `d[k] = v` on an insertion-ordered association list: replaces
the value in place when the key exists, appends otherwise. -/
def updateA (k v : String) : List (String × String) → List (String × String)
  | [] => [(k, v)]
  | (k₁, v₁) :: rest =>
    if k₁ = k then (k, v) :: rest else (k₁, v₁) :: updateA k v rest

/-- The separator inserted between same-purpose document texts
(tasks.process_claim_creation, the merge branch of the loop). -/
def mergeSep (d : Doc) : String :=
  "\n\n--- (Additional Document: " ++ d.file_name ++ ") ---\n\n"

/-- One iteration of the document loop in tasks.process_claim_creation:
`parsed_docs[purpose] += sep + content` when the purpose key exists,
`parsed_docs[purpose] = content` otherwise. -/
def addDocText (parse : String → String) (m : List (String × String)) (d : Doc) :
    List (String × String) :=
  let p := purposeOf d
  match lookupA p m with
  | some old => updateA p (old ++ mergeSep d ++ docText parse d) m
  | none => m ++ [(p, docText parse d)]

/-- crud_claim.find_document_by_purpose: first document of the patient whose
document_purpose equals the requested purpose (query .first() in list
order). -/
def find_document_by_purpose (docs : List Doc) (purpose : String) : Option Doc :=
  docs.find? (fun d => d.document_purpose == some purpose)

/-- The parsed_docs dictionary built by tasks.process_claim_creation from all
of the patient's documents: the merge loop over every document, followed by
the unconditional overwrite `parsed_docs['POLICY_DOC'] = ...` with the text
of the first POLICY_DOC document when one exists.  Each document is parsed
through the cache; since the cold parse writes the text back to the row, the
re-read of the policy document yields the same text, so the dictionary
contents are those of this pure function. -/
def gather_parsed_docs (parse : String → String) (docs : List Doc) :
    List (String × String) :=
  let afterLoop := docs.foldl (addDocText parse) []
  match find_document_by_purpose docs "POLICY_DOC" with
  | some policy_doc => updateA "POLICY_DOC" (docText parse policy_doc) afterLoop
  | none => afterLoop

example :
    gather_parsed_docs (fun _ => "")
      [⟨"d1", "p1", some "NOTE", some "a"⟩, ⟨"d2", "p2", some "NOTE", some "b"⟩] =
      [("NOTE", "a" ++ mergeSep ⟨"d2", "p2", some "NOTE", some "b"⟩ ++ "b")] := by
  decide

/-- A JSON value inside an AI response array, as seen by Python code that
runs `isinstance(code, (str, int))`: a string, an integer, or anything else
(null, float, list, object — all filtered out by the sanitizer). -/
inductive PyVal where
  | pstr (s : String)
  | pint (n : Int)
  | pother
deriving DecidableEq, Repr

/-- One element of the sanitizer comprehension in llm_service.apply_modifiers:
`str(code)[:10] for code in modified_codes if isinstance(code, (str, int))`. -/
def sanitizeElem : PyVal → Option String
  | .pstr s => some (String.mk (s.toList.take 10))
  | .pint n => some (String.mk ((toString n).toList.take 10))
  | .pother => none

/-- The sanitized code list of llm_service.apply_modifiers. -/
def sanitize_codes (modified_codes : List PyVal) : List String :=
  modified_codes.filterMap sanitizeElem

/-- llm_service.apply_modifiers, its pure response handling.  resp_modified
models `response_dict.get("modified_cpt_codes", cpt_codes)`: none when the
AI response lacks the key (the input codes are then used in its place), some
array otherwise.  The sanitizer drops non-string/int entries and truncates
to 10 characters; the length guard compares the SANITIZED list against the
input and falls back to the original codes on mismatch. -/
def apply_modifiers (cpt_codes : List String) (resp_modified : Option (List PyVal)) :
    List String :=
  let modified_codes := resp_modified.getD (cpt_codes.map PyVal.pstr)
  let sanitized_codes := sanitize_codes modified_codes
  if sanitized_codes.length = cpt_codes.length then sanitized_codes
  else cpt_codes

/-- llm_service.select_final_icd10_codes, its pure response handling: the
function returns `response_dict.get("selected_icd10_codes", [])` with no
check of its own — the candidate-membership and no-empty-result rules live
only in the prompt text.  resp_selected is none when the AI response lacks
the key.  markdown_text and candidate_codes are received (they shape the
prompt) but do not constrain the result. -/
def select_final_icd10_codes (markdown_text : String)
    (candidate_codes : List CodeDesc) (resp_selected : Option (List String)) :
    List String :=
  resp_selected.getD []

/-- Outcome of one transport-level LLM attempt, as distinguished by the
exception handlers in the source: success with a decoded JSON payload,
an openai RateLimitError, or any other failure. -/
inductive LLMAttempt where
  | success (payload : String)
  | rateLimited
  | otherFailure
deriving DecidableEq, Repr

/-- Failure kinds propagated to the caller. -/
inductive LLMErr where
  | rateLimited
  | otherFailure
deriving DecidableEq, Repr

/-- Observable behaviour of one LLM helper call: the returned/raised value,
how many transport attempts were made, and the sleeps (in seconds) inserted
between attempts. -/
structure CallTrace where
  result : Except LLMErr String
  attempts : Nat
  sleeps : List Nat
deriving Repr

/-- llm_service._call_llm_with_json_response (the helper every claim-pipeline
AI stage goes through).  The transport argument gives the outcome of the
n-th attempt; the source makes a single attempt and re-raises any failure —
there is no retry loop and no sleep in this function. -/
def call_llm_with_json_response (transport : Nat → LLMAttempt) : CallTrace :=
  match transport 0 with
  | .success payload => ⟨.ok payload, 1, []⟩
  | .rateLimited => ⟨.error .rateLimited, 1, []⟩
  | .otherFailure => ⟨.error .otherFailure, 1, []⟩

/-- Attempt loop of openai_service.call_llm_with_reasoning, counting down the
remaining iterations of `for attempt in range(retries + 1)`.  On success the
value is returned; a RateLimitError sleeps and continues unless this was the
final iteration, where it is re-raised; any other failure is re-raised at
once.  The zero-remaining case models the trailing raise after the loop,
which is unreachable when remaining starts positive. -/
def callReasoningAux (transport : Nat → LLMAttempt) (delay : Nat) :
    Nat → Nat → CallTrace
  | _, 0 => ⟨.error .rateLimited, 0, []⟩
  | attempt, remaining + 1 =>
    match transport attempt with
    | .success payload => ⟨.ok payload, 1, []⟩
    | .otherFailure => ⟨.error .otherFailure, 1, []⟩
    | .rateLimited =>
      if remaining = 0 then ⟨.error .rateLimited, 1, []⟩
      else
        let rest := callReasoningAux transport delay (attempt + 1) remaining
        ⟨rest.result, rest.attempts + 1, delay :: rest.sleeps⟩

/-- openai_service.call_llm_with_reasoning (used by the meriplex router, not
by the claim pipeline): bounded retry with a fixed sleep, for rate-limit
failures only.  The source defaults are retries = 1 and
retry_delay_seconds = 15. -/
def call_llm_with_reasoning (retries retry_delay_seconds : Nat)
    (transport : Nat → LLMAttempt) : CallTrace :=
  callReasoningAux transport retry_delay_seconds 0 (retries + 1)

example :
    call_llm_with_reasoning 1 15
      (fun n => if n = 0 then .rateLimited else .success "ok") =
      ⟨.ok "ok", 2, [15]⟩ := rfl

example :
    call_llm_with_json_response
      (fun n => if n = 0 then .rateLimited else .success "ok") =
      ⟨.error .rateLimited, 1, []⟩ := rfl

example :
    apply_modifiers ["99214"] (some [PyVal.pother, PyVal.pstr "99215"]) =
      ["99215"] := by
  decide

/-- Floor of a rational, written with Int.fdiv so that it evaluates by
kernel reduction. -/
def ratFloor (q : ℚ) : ℤ :=
  Int.fdiv q.num q.den

/-- Python round-half-to-even on a rational. -/
def bankersRound (q : ℚ) : ℤ :=
  let f := ratFloor q
  let frac := q - (f : ℚ)
  if frac < 1/2 then f
  else if 1/2 < frac then f + 1
  else if f % 2 = 0 then f else f + 1

/-- Python `round(x, 2)`: round half to even at two decimal places.  The
source computes on floats; exact rationals model the same arithmetic without
binary-representation noise. -/
def round2 (q : ℚ) : ℚ :=
  (bankersRound (q * 100) : ℚ) / 100

/-- One entry of the extraction stage's service_lines array (the JSON schema
in llm_service.synthesize_and_extract_claim_data): cpt_code and
charge_amount may each be null. -/
structure ExtractedServiceLine where
  cpt_code : Option String
  charge_amount : Option ℚ
deriving DecidableEq, Repr

/-- The fields of the extraction stage's response that the service-line
builder consumes (crud_claim.create_service_lines_for_claim).  none for
total_charge_amount covers both a null value and a missing key — the source
applies `extracted_claim_data.get('total_charge_amount', 0.0) or 0.0`, which
maps both to 0.  The many CMS-1500 identity fields of the response are
pass-through claim-form data and are not modelled. -/
structure ExtractedData where
  total_charge_amount : Option ℚ
  service_lines : List ExtractedServiceLine
deriving DecidableEq, Repr

/-- A service_lines table row as the pipeline writes it
(models/service_line.py; the columns the builder does not set are omitted). -/
structure ServiceLine where
  cpt_code : String
  icd10_codes : List String
  charge : Option ℚ
  code_confidence_score : Option ℚ
  diagnosis_pointer : String
deriving DecidableEq, Repr

/-- Python dict lookup on an association list that mirrors a dict built by
insertion (json.loads objects and dict comprehensions keep the LAST
occurrence of a duplicated key). -/
def pyDictGet {β : Type} (l : List (Option String × β)) (k : Option String) :
    Option β :=
  ((l.filter (fun p => p.1 == k)).getLast?).map (·.2)

/-- Like pyDictGet, for string-keyed dicts. -/
def pyDictGetS {β : Type} (l : List (String × β)) (k : String) : Option β :=
  ((l.filter (fun p => p.1 == k)).getLast?).map (·.2)

/-- crud_claim.create_service_lines_for_claim ("THE ACTUAL FINAL VERSION").
Deletes the claim's existing service lines and returns the replacement rows.
The charge policy of the source: distribute the extraction stage's
total_charge_amount equally over the validated CPT codes (rounded to two
decimals) whenever that total is positive and CPT codes exist; only when the
distributed charge is not positive fall back to the per-line charge map
built from the extraction stage's service_lines (defaulting to 0 for an
absent CPT code). -/
def create_service_lines_for_claim (validated_codes : ValidatedCodes)
    (confidence_scores : List (String × ℚ))
    (diagnosis_pointers : List (String × String))
    (extracted_claim_data : ExtractedData) : List ServiceLine :=
  let final_icd10_codes := validated_codes.icd10_codes.map (·.code)
  let cpt_codes_to_process := validated_codes.cpt_codes
  let total_charge : ℚ := extracted_claim_data.total_charge_amount.getD 0
  let charge_to_distribute : ℚ :=
    if ¬ cpt_codes_to_process.isEmpty ∧ 0 < total_charge then
      round2 (total_charge / (cpt_codes_to_process.length : ℚ))
    else 0
  let charge_map : List (Option String × Option ℚ) :=
    extracted_claim_data.service_lines.map (fun l => (l.cpt_code, l.charge_amount))
  cpt_codes_to_process.map (fun cpt_item =>
    let charge_amount : Option ℚ :=
      if 0 < charge_to_distribute then some charge_to_distribute
      else
        match pyDictGet charge_map (some cpt_item.code) with
        | some v => v
        | none => some 0
    { cpt_code := cpt_item.code
      icd10_codes := final_icd10_codes
      charge := charge_amount
      code_confidence_score := pyDictGetS confidence_scores cpt_item.code
      diagnosis_pointer := (pyDictGetS diagnosis_pointers cpt_item.code).getD "A" })

example :
    create_service_lines_for_claim
      ⟨[⟨"99213", "d1"⟩, ⟨"99214", "d2"⟩], []⟩ [] []
      ⟨some 300, [⟨some "99213", some 100⟩, ⟨some "99214", some 200⟩]⟩ =
      [⟨"99213", [], some 150, none, "A"⟩, ⟨"99214", [], some 150, none, "A"⟩] := by
  norm_num [create_service_lines_for_claim, round2, bankersRound, ratFloor,
    pyDictGet, pyDictGetS]

/-- One compliance flag, as requested from the AI
(llm_service.check_compliance_and_refine: objects with level and message). -/
structure ComplianceFlag where
  level : String
  message : String
deriving DecidableEq, Repr

/-- The claims-table fields the creation pipeline touches
(models/claim.py; the CMS-1500 pass-through columns filled from the
extraction stage are claim-form data no claim reasons about and are left
out of the embedding). -/
structure Claim where
  status : ClaimStatus
  denial_reason : Option String
  eligibility_status : Option String
  patient_responsibility_amount : Option ℚ
  compliance_flags : List ComplianceFlag
deriving DecidableEq, Repr

/-- crud_claim.update_claim_status: sets the status and, only when the given
denial_reason is truthy (non-None, non-empty), records it. -/
def update_claim_status (claim : Claim) (status : ClaimStatus)
    (denial_reason : Option String) : Claim :=
  let c := { claim with status := status }
  if strTruthy denial_reason then { c with denial_reason := denial_reason }
  else c

/-- What the coding-suggestion AI response contributes
(llm_service.generate_medical_codes; the orchestrator reads the two keys
with `.get(..., [])`, so each is none when missing). -/
structure CodingSuggestionsResp where
  icd10_search_terms : Option (List String)
  suggested_cpt_codes : Option (List String)

/-- What the compliance AI response contributes
(llm_service.check_compliance_and_refine; the orchestrator and the
service-line builder read the three keys with `.get`, none when missing). -/
structure ComplianceResp where
  compliance_flags : Option (List ComplianceFlag)
  confidence_scores : Option (List (String × ℚ))
  diagnosis_pointers : Option (List (String × String))

/-- The external AI/search calls of the claim-creation pipeline, modelled as
deterministic response functions of the prompts' data inputs (success path;
a raised exception anywhere in the pipeline is caught at the top level and
turns the claim into denied, a path no claim here quantifies over). -/
structure PipelineOracles where
  parse : String → String
  synthesize : List (String × String) → ExtractedData
  generate_codes : String → ExtractedData → CodingSuggestionsResp
  find_similar_icd10_codes : List String → List CodeDesc
  select_resp : String → List CodeDesc → Option (List String)
  compliance : String → ExtractedData → ValidatedCodes → ComplianceResp
  modifier_resp : List String → List ComplianceFlag → Option (List PyVal)

/-- tasks.py lines 188-190: write the modifier stage's output codes back
onto the validated CPT items by index (indices beyond the modified list keep
their original code). -/
def applyModifiedCodes (items : List CodeDesc) (modified : List String) :
    List CodeDesc :=
  items.enum.map (fun p =>
    match modified.get? p.1 with
    | some c => { p.2 with code := c }
    | none => p.2)

/-- Result of one claim-creation pipeline run: the updated claim row, the
claim's service lines after the run, and the names of the pipeline stages
that executed (empty when the run stopped before the AI stages). -/
structure PipelineResult where
  claim : Claim
  service_lines : List ServiceLine
  stages_run : List String
deriving Repr

/-- tasks.process_claim_creation, the claim-creation orchestrator, for a
claim that was found together with its patient.  catalog models the
medical_codes table, benefits the patient's policy_benefits rows,
patient_docs the patient's documents (crud_claim.get_all_documents_for_patient)
and existing_lines the claim's current service lines.  With no documents the
claim is denied with a recorded reason and nothing else happens; otherwise
the stages run in sequence and the claim ends in draft with replaced service
lines. -/
def process_claim_creation (o : PipelineOracles) (catalog : List MedicalCode)
    (benefits : List PolicyBenefit) (claim : Claim) (patient_docs : List Doc)
    (existing_lines : List ServiceLine) : PipelineResult :=
  if patient_docs.isEmpty then
    { claim := update_claim_status claim .denied (some "No documents found for patient.")
      service_lines := existing_lines
      stages_run := [] }
  else
    let parsed_docs := gather_parsed_docs o.parse patient_docs
    let extracted_claim_data := o.synthesize parsed_docs
    let encounter_note_text := (lookupA "ENCOUNTER_NOTE" parsed_docs).getD ""
    let coding_suggestions := o.generate_codes encounter_note_text extracted_claim_data
    let icd10_search_terms := coding_suggestions.icd10_search_terms.getD []
    let retrieved_icd10_candidates := o.find_similar_icd10_codes icd10_search_terms
    let final_icd10_codes := select_final_icd10_codes encounter_note_text
      retrieved_icd10_candidates (o.select_resp encounter_note_text retrieved_icd10_candidates)
    let validated_codes := validate_codes catalog
      (coding_suggestions.suggested_cpt_codes.getD []) final_icd10_codes
    let cpt_code_strings := validated_codes.cpt_codes.map (·.code)
    let elig := check_claim_eligibility benefits cpt_code_strings
    let compliance_and_confidence := o.compliance encounter_note_text
      extracted_claim_data validated_codes
    let flags := compliance_and_confidence.compliance_flags.getD []
    let modified_cpt_codes := apply_modifiers cpt_code_strings
      (o.modifier_resp cpt_code_strings flags)
    let validated_codes' := { validated_codes with
      cpt_codes := applyModifiedCodes validated_codes.cpt_codes modified_cpt_codes }
    let new_lines := create_service_lines_for_claim validated_codes'
      (compliance_and_confidence.confidence_scores.getD [])
      (compliance_and_confidence.diagnosis_pointers.getD [])
      extracted_claim_data
    let claim' := update_claim_status
      { claim with
        eligibility_status := some elig.1
        patient_responsibility_amount := some elig.2
        compliance_flags := flags }
      .draft none
    { claim := claim'
      service_lines := new_lines
      stages_run := ["synthesize", "coding", "eligibility", "compliance",
                     "modifier", "persist"] }

/-- Helper: the last element reported by getLast? is a member of the list. -/
lemma getLast?_mem_of_eq_some {α : Type} {l : List α} {a : α}
    (h : l.getLast? = some a) : a ∈ l := by
  obtain ⟨hne, rfl⟩ := List.mem_getLast?_eq_getLast h
  exact List.getLast_mem hne

/-- C4: for every patient with zero PolicyBenefit rows and every list of
input service codes, check_claim_eligibility returns status
"Inactive - No Policy on File" and patient responsibility 0. -/
theorem eligibility_no_policy_inactive (service_codes : List String) :
    check_claim_eligibility [] service_codes =
      ("Inactive - No Policy on File", 0) := rfl

/-- C10: for every patient with at least one PolicyBenefit row,
check_claim_eligibility returns status "Active"; and the responsibility is 0
whenever no benefit's type contains "visit" (case-insensitively) or the
first such benefit's co_pay_amount is null or zero. -/
theorem eligibility_active_responsibility (benefits : List PolicyBenefit)
    (service_codes : List String) (h : benefits ≠ []) :
    (check_claim_eligibility benefits service_codes).1 = "Active" ∧
    ((∀ b ∈ benefits, isVisitBenefit b = false) →
      (check_claim_eligibility benefits service_codes).2 = 0) ∧
    (∀ b, benefits.find? isVisitBenefit = some b →
      b.co_pay_amount = none ∨ b.co_pay_amount = some 0 →
      (check_claim_eligibility benefits service_codes).2 = 0) := by
  have hne : benefits.isEmpty = false := by
    simpa [List.isEmpty_iff] using h
  refine ⟨?_, ?_, ?_⟩
  · simp [check_claim_eligibility, hne]
  · intro hall
    have hfind : benefits.find? isVisitBenefit = none :=
      List.find?_eq_none.mpr (fun b hb => by simp [hall b hb])
    simp [check_claim_eligibility, hne, hfind]
  · intro b hfind hco
    rcases hco with h0 | h0 <;> simp [check_claim_eligibility, hne, hfind, h0]

/-- Witness for C10 at a patient holding one benefit without a visit co-pay. -/
theorem eligibility_active_responsibility_witness :
    (check_claim_eligibility [⟨"Dental", none, true, none, none, none⟩]
        ["99213"]).1 = "Active" ∧
    (check_claim_eligibility [⟨"Dental", none, true, none, none, none⟩]
        ["99213"]).2 = 0 := by
  have h := eligibility_active_responsibility
    [⟨"Dental", none, true, none, none, none⟩] ["99213"] (by simp)
  exact ⟨h.1, h.2.1 (by decide)⟩

/-- C1: with zero documents owned by the patient, the claim-creation
pipeline denies the claim with exactly the reason
"No documents found for patient.", runs no later stage and leaves the
claim's service lines untouched (none are created). -/
theorem pipeline_no_documents_denies (o : PipelineOracles)
    (catalog : List MedicalCode) (benefits : List PolicyBenefit) (claim : Claim)
    (patient_docs : List Doc) (existing_lines : List ServiceLine)
    (h : patient_docs = []) :
    process_claim_creation o catalog benefits claim patient_docs existing_lines =
      { claim :=
          { claim with
            status := ClaimStatus.denied
            denial_reason := some "No documents found for patient." }
        service_lines := existing_lines
        stages_run := [] } := by
  subst h
  rfl

/-- Witness for C1 on a concrete processing claim with no documents. -/
theorem pipeline_no_documents_denies_witness :
    process_claim_creation
      ⟨fun _ => "", fun _ => ⟨none, []⟩, fun _ _ => ⟨none, none⟩, fun _ => [],
        fun _ _ => none, fun _ _ _ => ⟨none, none, none⟩, fun _ _ => none⟩
      [] [] ⟨.processing, none, none, none, []⟩ [] [] =
      { claim := ⟨.denied, some "No documents found for patient.", none, none, []⟩
        service_lines := []
        stages_run := [] } :=
  pipeline_no_documents_denies _ _ _ _ _ _ rfl

/-- C6 counterexample: with a non-empty candidate list, an AI response whose
selected_icd10_codes field is the empty array makes the final-selection
stage return the empty list — the code enforces no fallback. -/
theorem select_final_counterexample :
    ([⟨"A001", "Cholera"⟩] : List CodeDesc) ≠ [] ∧
    select_final_icd10_codes "note text" [⟨"A001", "Cholera"⟩] (some []) = [] := by
  exact ⟨by simp, rfl⟩

/-- C6 amended: select_final_icd10_codes passes the AI response through
unchecked — it returns exactly the response's selected_icd10_codes array
(so an empty selection or codes outside the candidate list are returned
as-is), and the empty list when the key is absent; the candidate-membership
and no-empty-result rules are prompt instructions, not code guarantees. -/
theorem select_final_passthrough (markdown_text : String)
    (candidate_codes : List CodeDesc) :
    (∀ selected : List String,
      select_final_icd10_codes markdown_text candidate_codes (some selected) =
        selected) ∧
    select_final_icd10_codes markdown_text candidate_codes none = [] :=
  ⟨fun _ => rfl, rfl⟩

/-- C5 counterexample: a response array of length 2 against a single input
code, where one entry is neither string nor int: the sanitized list has
length 1, the guard passes, and the stage returns the sanitized AI codes
rather than the original input. -/
theorem apply_modifiers_counterexample :
    ([PyVal.pother, PyVal.pstr "99215"] : List PyVal).length ≠
      (["99214"] : List String).length ∧
    apply_modifiers ["99214"] (some [PyVal.pother, PyVal.pstr "99215"]) ≠
      ["99214"] := by
  refine ⟨by decide, ?_⟩
  decide

/-- C5 amended: the modifier stage's length guard compares the SANITIZED
response array (non-string/int entries dropped, elements stringified and
truncated to 10 characters) with the input: on mismatch it returns exactly
the original input, and its output always has the input's length — but a
raw response array of a different length can still be accepted once
sanitization brings its length back to the input's. -/
theorem apply_modifiers_sanitized_guard (cpt_codes : List String)
    (resp_modified : Option (List PyVal)) :
    (apply_modifiers cpt_codes resp_modified).length = cpt_codes.length ∧
    (∀ l, resp_modified = some l →
      (sanitize_codes l).length ≠ cpt_codes.length →
      apply_modifiers cpt_codes resp_modified = cpt_codes) := by
  constructor
  · unfold apply_modifiers
    simp only []
    split
    · next hlen => exact hlen
    · rfl
  · intro l hl hne
    subst hl
    unfold apply_modifiers
    simp only [Option.getD_some]
    rw [if_neg hne]

/-- Witness for C5 amended: a response array whose sanitized form is shorter
than the input is discarded in favour of the original codes. -/
theorem apply_modifiers_sanitized_guard_witness :
    apply_modifiers ["99214"] (some [PyVal.pother]) = ["99214"] :=
  (apply_modifiers_sanitized_guard ["99214"] (some [PyVal.pother])).2
    [PyVal.pother] rfl (by decide)

/-- C9 counterexample: a rate-limited first attempt makes the pipeline's LLM
helper raise after exactly one attempt with no sleep, even though a second
attempt would have succeeded — no retry is performed. -/
theorem llm_no_retry_counterexample :
    call_llm_with_json_response
        (fun n => if n = 0 then .rateLimited else .success "ok") =
      ⟨.error .rateLimited, 1, []⟩ ∧ (1 : Nat) ≠ 2 :=
  ⟨rfl, by decide⟩

/-- C9 amended: the claim pipeline's top-level LLM helper
(_call_llm_with_json_response) performs no retry at all — exactly one
attempt, every failure (rate limit included) propagating immediately.  The
bounded retry (one retry, fixed 15-second sleep, rate-limit failures only,
others raised at once) exists in the separate openai_service helper
call_llm_with_reasoning, which serves the meriplex router and not the claim
pipeline. -/
theorem llm_retry_location (transport : Nat → LLMAttempt) :
    ((call_llm_with_json_response transport).attempts = 1 ∧
      (call_llm_with_json_response transport).sleeps = []) ∧
    (transport 0 = .rateLimited →
      call_llm_with_json_response transport = ⟨.error .rateLimited, 1, []⟩) ∧
    (∀ payload, transport 0 = .success payload →
      call_llm_with_reasoning 1 15 transport = ⟨.ok payload, 1, []⟩) ∧
    (transport 0 = .otherFailure →
      call_llm_with_reasoning 1 15 transport = ⟨.error .otherFailure, 1, []⟩) ∧
    (transport 0 = .rateLimited →
      call_llm_with_reasoning 1 15 transport =
        match transport 1 with
        | .success payload => ⟨.ok payload, 2, [15]⟩
        | .rateLimited => ⟨.error .rateLimited, 2, [15]⟩
        | .otherFailure => ⟨.error .otherFailure, 2, [15]⟩) := by
  refine ⟨⟨?_, ?_⟩, ?_, ?_, ?_, ?_⟩
  · cases h0 : transport 0 <;> simp [call_llm_with_json_response, h0]
  · cases h0 : transport 0 <;> simp [call_llm_with_json_response, h0]
  · intro h0
    simp [call_llm_with_json_response, h0]
  · intro payload h0
    simp [call_llm_with_reasoning, callReasoningAux, h0]
  · intro h0
    simp [call_llm_with_reasoning, callReasoningAux, h0]
  · intro h0
    cases h1 : transport 1 <;>
      simp [call_llm_with_reasoning, callReasoningAux, h0, h1]

/-- Witness for C9 amended: with a transport that is rate-limited once and
then succeeds, the pipeline helper fails after one attempt while the
meriplex helper retries once after a 15-second sleep and succeeds. -/
theorem llm_retry_location_witness :
    call_llm_with_json_response
        (fun n => if n = 0 then .rateLimited else .success "ok") =
      ⟨.error .rateLimited, 1, []⟩ ∧
    call_llm_with_reasoning 1 15
        (fun n => if n = 0 then .rateLimited else .success "ok") =
      ⟨.ok "ok", 2, [15]⟩ := by
  have h := llm_retry_location
    (fun n => if n = 0 then .rateLimited else .success "ok")
  exact ⟨h.2.1 rfl, h.2.2.2.2 rfl⟩

/-- C2 counterexample: a document with no cached text whose external parse
yields the empty string is parsed on BOTH calls (the empty result is cached
but fails the truthiness test), so two external parse calls occur, not one. -/
theorem parse_cache_counterexample :
    (parse_twice (fun _ => "") ⟨"f.pdf", "p/f.pdf", none, none⟩).2.2 = 2 ∧
    (2 : Nat) ≠ 1 :=
  ⟨rfl, by decide⟩

/-- Helper: the cache-hit path of get_or_parse_document_text. -/
lemma get_or_parse_warm (parse : String → String) (doc : Doc)
    (hc : strTruthy doc.parsed_text = true) :
    get_or_parse_document_text parse doc = (doc.parsed_text.getD "", doc, 0) := by
  simp [get_or_parse_document_text, hc]

/-- Helper: the cold-parse path of get_or_parse_document_text. -/
lemma get_or_parse_cold (parse : String → String) (doc : Doc)
    (hc : strTruthy doc.parsed_text = false) :
    get_or_parse_document_text parse doc =
      (parse doc.file_path,
        { doc with parsed_text := some (parse doc.file_path) }, 1) := by
  simp [get_or_parse_document_text, hc]

/-- C2 amended: both consecutive calls always return identical text; a
document whose parsed_text is a truthy (non-empty) string is returned
verbatim with zero external calls; an uncached document is parsed exactly
once provided the parse result is non-empty; but an empty parse result
never populates a truthy cache, so each of the two calls parses (two
external calls). -/
theorem parse_cache_idempotent (parse : String → String) (doc : Doc) :
    ((parse_twice parse doc).1 = (parse_twice parse doc).2.1) ∧
    (strTruthy doc.parsed_text = true →
      (parse_twice parse doc).1 = doc.parsed_text.getD "" ∧
      (parse_twice parse doc).2.2 = 0) ∧
    (strTruthy doc.parsed_text = false → parse doc.file_path ≠ "" →
      (parse_twice parse doc).2.2 = 1) ∧
    (strTruthy doc.parsed_text = false → parse doc.file_path = "" →
      (parse_twice parse doc).2.2 = 2) := by
  by_cases hc : strTruthy doc.parsed_text
  · have h1 := get_or_parse_warm parse doc hc
    refine ⟨?_, ?_, ?_, ?_⟩
    · simp [parse_twice, h1]
    · intro _
      constructor <;> simp [parse_twice, h1]
    · intro hf
      rw [hc] at hf
      cases hf
    · intro hf
      rw [hc] at hf
      cases hf
  · simp only [Bool.not_eq_true] at hc
    have h1 := get_or_parse_cold parse doc hc
    by_cases hp : parse doc.file_path = ""
    · have hc2 : strTruthy
          ({ doc with parsed_text := some (parse doc.file_path) } : Doc).parsed_text
            = false := by
        simp [strTruthy, hp]
      have h2 := get_or_parse_cold parse _ hc2
      refine ⟨?_, ?_, ?_, ?_⟩
      · simp [parse_twice, h1, h2]
      · intro ht
        rw [hc] at ht
        cases ht
      · intro _ hne
        exact absurd hp hne
      · intro _ _
        simp [parse_twice, h1, h2]
    · have hc2 : strTruthy
          ({ doc with parsed_text := some (parse doc.file_path) } : Doc).parsed_text
            = true := by
        simp [strTruthy, hp]
      have h2 := get_or_parse_warm parse _ hc2
      refine ⟨?_, ?_, ?_, ?_⟩
      · simp [parse_twice, h1, h2]
      · intro ht
        rw [hc] at ht
        cases ht
      · intro _ _
        simp [parse_twice, h1, h2]
      · intro _ he
        exact absurd he hp

/-- Witness for C2 amended: an uncached document whose parse yields
non-empty text is parsed exactly once across the two calls. -/
theorem parse_cache_idempotent_witness :
    (parse_twice (fun _ => "# note") ⟨"f.pdf", "p/f.pdf", none, none⟩).2.2 = 1 := by
  have h := parse_cache_idempotent (fun _ => "# note")
    ⟨"f.pdf", "p/f.pdf", none, none⟩
  exact h.2.2.1 rfl (by decide)

/-- Helper: a successful code_map lookup yields a record of the queried list
whose code_value is the queried code. -/
lemma codeMapFind_mem {db_results : List MedicalCode} {c : String}
    {r : MedicalCode} (h : codeMapFind db_results c = some r) :
    r ∈ db_results ∧ r.code_value = c := by
  unfold codeMapFind at h
  have hmem := getLast?_mem_of_eq_some h
  have := List.mem_filter.mp hmem
  exact ⟨this.1, by simpa using this.2⟩

/-- Helper: the code_map lookup misses exactly when no record of the queried
list carries the queried code_value. -/
lemma codeMapFind_eq_none_iff {db_results : List MedicalCode} {c : String} :
    codeMapFind db_results c = none ↔
      ∀ r ∈ db_results, r.code_value ≠ c := by
  unfold codeMapFind
  rw [List.getLast?_eq_none_iff, List.filter_eq_nil_iff]
  simp

/-- Helper: a catalog record whose code_value is one of the suggested codes
survives the batched query filter. -/
lemma mem_db_results_of_suggested {catalog : List MedicalCode}
    {keys : List String} {r : MedicalCode} (hr : r ∈ catalog)
    (hk : r.code_value ∈ keys) :
    r ∈ catalog.filter (fun x => keys.contains x.code_value) :=
  List.mem_filter.mpr ⟨hr, by simp [List.elem_iff, hk]⟩

/-- C3: in every code-validation call, a suggested ICD-10 code with no
catalog record is absent from the output icd10_codes; a suggested CPT code
with no catalog record is present in the output cpt_codes with the
placeholder description; and every output entry that has a catalog record
carries a catalog description for its code. -/
theorem validate_codes_asymmetry (catalog : List MedicalCode)
    (suggested_cpt suggested_icd10 : List String) :
    (∀ c ∈ suggested_icd10, (∀ r ∈ catalog, r.code_value ≠ c) →
      ∀ e ∈ (validate_codes catalog suggested_cpt suggested_icd10).icd10_codes,
        e.code ≠ c) ∧
    (∀ c ∈ suggested_cpt, (∀ r ∈ catalog, r.code_value ≠ c) →
      (⟨c, "AI Suggested Code (Unverified)"⟩ : CodeDesc) ∈
        (validate_codes catalog suggested_cpt suggested_icd10).cpt_codes) ∧
    (∀ e ∈ (validate_codes catalog suggested_cpt suggested_icd10).cpt_codes,
      (∃ r ∈ catalog, r.code_value = e.code) →
      ∃ r ∈ catalog, r.code_value = e.code ∧ r.description = e.description) ∧
    (∀ e ∈ (validate_codes catalog suggested_cpt suggested_icd10).icd10_codes,
      ∃ r ∈ catalog, r.code_value = e.code ∧ r.description = e.description) := by
  by_cases hempty : (suggested_cpt ++ suggested_icd10).isEmpty
  · have hboth : suggested_cpt = [] ∧ suggested_icd10 = [] := by
      simpa [List.isEmpty_iff, List.append_eq_nil] using hempty
    simp [validate_codes, hempty, hboth.1, hboth.2]
  · have hicd :
        (validate_codes catalog suggested_cpt suggested_icd10).icd10_codes =
          suggested_icd10.filterMap (fun c =>
            match codeMapFind (catalog.filter (fun r =>
              (suggested_cpt ++ suggested_icd10).contains r.code_value)) c with
            | some r => some (⟨r.code_value, r.description⟩ : CodeDesc)
            | none => none) := by
      simp only [validate_codes, hempty]
      simp
    have hcpt :
        (validate_codes catalog suggested_cpt suggested_icd10).cpt_codes =
          suggested_cpt.map (fun c =>
            match codeMapFind (catalog.filter (fun r =>
              (suggested_cpt ++ suggested_icd10).contains r.code_value)) c with
            | some r => (⟨r.code_value, r.description⟩ : CodeDesc)
            | none => ⟨c, "AI Suggested Code (Unverified)"⟩) := by
      simp only [validate_codes, hempty]
      simp
    have hicd_entry : ∀ e ∈
        (validate_codes catalog suggested_cpt suggested_icd10).icd10_codes,
        ∃ r ∈ catalog, r.code_value = e.code ∧ r.description = e.description := by
      intro e he
      rw [hicd] at he
      obtain ⟨c, hc, hfc⟩ := List.mem_filterMap.mp he
      cases hfind : codeMapFind (catalog.filter (fun r =>
          (suggested_cpt ++ suggested_icd10).contains r.code_value)) c with
      | none => rw [hfind] at hfc; cases hfc
      | some r =>
        rw [hfind] at hfc
        obtain ⟨hrmem, hrc⟩ := codeMapFind_mem hfind
        have hrcat := List.mem_of_mem_filter hrmem
        refine ⟨r, hrcat, ?_, ?_⟩ <;> cases hfc <;> rfl
    refine ⟨?_, ?_, ?_, hicd_entry⟩
    · intro c hc hmiss e he hec
      obtain ⟨r, hrcat, hrc, _⟩ := hicd_entry e he
      exact hmiss r hrcat (hec ▸ hrc)
    · intro c hc hmiss
      have hfind : codeMapFind (catalog.filter (fun r =>
          (suggested_cpt ++ suggested_icd10).contains r.code_value)) c = none :=
        codeMapFind_eq_none_iff.mpr
          (fun r hr => hmiss r (List.mem_of_mem_filter hr))
      rw [hcpt]
      have := List.mem_map_of_mem (fun c =>
        match codeMapFind (catalog.filter (fun r =>
          (suggested_cpt ++ suggested_icd10).contains r.code_value)) c with
        | some r => (⟨r.code_value, r.description⟩ : CodeDesc)
        | none => ⟨c, "AI Suggested Code (Unverified)"⟩) hc
      simp only [hfind] at this
      exact this
    · intro e he hex
      rw [hcpt] at he
      obtain ⟨c, hc, hfc⟩ := List.mem_map.mp he
      cases hfind : codeMapFind (catalog.filter (fun r =>
          (suggested_cpt ++ suggested_icd10).contains r.code_value)) c with
      | some r =>
        rw [hfind] at hfc
        obtain ⟨hrmem, hrc⟩ := codeMapFind_mem hfind
        have hrcat := List.mem_of_mem_filter hrmem
        refine ⟨r, hrcat, ?_, ?_⟩ <;> cases hfc <;> rfl
      | none =>
        rw [hfind] at hfc
        obtain ⟨r, hrcat, hrc⟩ := hex
        have : r ∈ catalog.filter (fun x =>
            (suggested_cpt ++ suggested_icd10).contains x.code_value) :=
          mem_db_results_of_suggested hrcat (by
            cases hfc
            exact List.mem_append_left _ (hrc ▸ hc))
        exact absurd (codeMapFind_eq_none_iff.mp hfind r this) (by
          cases hfc
          simpa using hrc)

/-- Witness for C3: a CPT code absent from a concrete one-row catalog is
kept with the placeholder description, applying the theorem at that input. -/
theorem validate_codes_asymmetry_witness :
    (⟨"X999", "AI Suggested Code (Unverified)"⟩ : CodeDesc) ∈
      (validate_codes [⟨"99213", "CPT", "Office visit"⟩] ["X999"]
        ["A00"]).cpt_codes := by
  have h := validate_codes_asymmetry [⟨"99213", "CPT", "Office visit"⟩]
    ["X999"] ["A00"]
  exact h.2.1 "X999" (by decide) (by decide)

/-- Helper: lookup after a dict assignment — the assigned key reads the new
value, every other key is untouched. -/
lemma lookupA_updateA (k v p : String) (m : List (String × String)) :
    lookupA p (updateA k v m) = if k = p then some v else lookupA p m := by
  induction m with
  | nil =>
    by_cases h : k = p <;> simp [updateA, lookupA, h]
  | cons hd tl ih =>
    obtain ⟨k₁, v₁⟩ := hd
    by_cases h1 : k₁ = k
    · subst h1
      by_cases h2 : k₁ = p <;> simp [updateA, lookupA, h2]
    · by_cases h2 : k₁ = p
      · subst h2
        have : ¬ k = k₁ := fun h => h1 h.symm
        simp [updateA, lookupA, h1, this]
      · simp [updateA, lookupA, h1, h2, ih]

/-- Helper: lookup over an appended singleton. -/
lemma lookupA_append_single (p k v : String) (m : List (String × String)) :
    lookupA p (m ++ [(k, v)]) =
      match lookupA p m with
      | some x => some x
      | none => if k = p then some v else none := by
  induction m with
  | nil => simp [lookupA]
  | cons hd tl ih =>
    obtain ⟨k₁, v₁⟩ := hd
    by_cases h1 : k₁ = p <;> simp [lookupA, h1, ih]

/-- Accumulation of one document's text onto the optional current entry of
its purpose: the canonical form of the loop's merge step. -/
def mergeStep (parse : String → String) (acc : Option String) (d : Doc) :
    Option String :=
  match acc with
  | some old => some (old ++ mergeSep d ++ docText parse d)
  | none => some (docText parse d)

/-- Helper: one loop iteration changes exactly the entry of the document's
purpose, by the merge step. -/
lemma lookupA_addDocText (parse : String → String) (m : List (String × String))
    (d : Doc) (p : String) :
    lookupA p (addDocText parse m d) =
      if purposeOf d = p then mergeStep parse (lookupA p m) d
      else lookupA p m := by
  unfold addDocText mergeStep
  by_cases hp : purposeOf d = p
  · subst hp
    cases hm : lookupA (purposeOf d) m with
    | some old => simp [lookupA_updateA, hm]
    | none => simp [lookupA_append_single, hm]
  · cases hm : lookupA (purposeOf d) m with
    | some old => simp [lookupA_updateA, hp, hm]
    | none =>
      simp only [hm, lookupA_append_single]
      cases hq : lookupA p m <;> simp [hp, hq]

/-- Helper: the document loop, over any starting dictionary, merges into
each purpose's entry exactly the texts of the documents with that purpose,
in order. -/
lemma lookupA_foldl_addDocText (parse : String → String) (docs : List Doc)
    (m : List (String × String)) (p : String) :
    lookupA p (docs.foldl (addDocText parse) m) =
      (docs.filter (fun d => purposeOf d == p)).foldl (mergeStep parse)
        (lookupA p m) := by
  induction docs generalizing m with
  | nil => rfl
  | cons d ds ih =>
    rw [List.foldl_cons, ih]
    by_cases hp : purposeOf d = p
    · rw [List.filter_cons_of_pos (by simpa using hp), List.foldl_cons,
        lookupA_addDocText, if_pos hp]
    · rw [List.filter_cons_of_neg (by simpa using hp),
        lookupA_addDocText, if_neg hp]

/-- C7 counterexample: two POLICY_DOC documents with cached texts "a" and
"b".  The loop merges them, but the post-loop overwrite replaces the entry
with the first document's text alone: the final POLICY_DOC entry is "a" and
the second document's text "b" is lost. -/
theorem gather_docs_counterexample :
    lookupA "POLICY_DOC"
        (gather_parsed_docs (fun _ => "")
          [⟨"d1", "p1", some "POLICY_DOC", some "a"⟩,
            ⟨"d2", "p2", some "POLICY_DOC", some "b"⟩]) = some "a" ∧
    strContains "b" "a" = false := by
  constructor
  · rfl
  · decide

/-- C7 amended: for every purpose other than POLICY_DOC the dictionary entry
is exactly the in-order merge (joined with the separator marker) of all
same-purpose documents' texts, none overwritten or lost; the POLICY_DOC
entry, however, is overwritten after the loop with the text of the first
POLICY_DOC document whenever one exists, discarding the merged texts of any
further POLICY_DOC documents. -/
theorem gather_docs_merge (parse : String → String) (docs : List Doc) :
    (∀ p, p ≠ "POLICY_DOC" →
      lookupA p (gather_parsed_docs parse docs) =
        (docs.filter (fun d => purposeOf d == p)).foldl (mergeStep parse)
          none) ∧
    (∀ pd, find_document_by_purpose docs "POLICY_DOC" = some pd →
      lookupA "POLICY_DOC" (gather_parsed_docs parse docs) =
        some (docText parse pd)) := by
  constructor
  · intro p hp
    unfold gather_parsed_docs
    cases hfind : find_document_by_purpose docs "POLICY_DOC" with
    | none => exact lookupA_foldl_addDocText parse docs [] p
    | some pd =>
      rw [lookupA_updateA, if_neg (fun h => hp h.symm)]
      exact lookupA_foldl_addDocText parse docs [] p
  · intro pd hfind
    unfold gather_parsed_docs
    rw [hfind, lookupA_updateA, if_pos rfl]

/-- Witness for C7 amended at two concrete documents: a non-policy purpose
keeps both texts merged while POLICY_DOC collapses to the first document's
text. -/
theorem gather_docs_merge_witness :
    lookupA "POLICY_DOC"
        (gather_parsed_docs (fun _ => "")
          [⟨"d1", "p1", some "POLICY_DOC", some "a"⟩,
            ⟨"d2", "p2", some "POLICY_DOC", some "b"⟩]) = some "a" := by
  have h := gather_docs_merge (fun _ => "")
    [⟨"d1", "p1", some "POLICY_DOC", some "a"⟩,
      ⟨"d2", "p2", some "POLICY_DOC", some "b"⟩]
  exact h.2 ⟨"d1", "p1", some "POLICY_DOC", some "a"⟩ rfl

/-- C8 counterexample: with AI-extracted per-line charges 100 and 200 and a
positive total of 300 over two validated CPT codes, both service lines are
charged the equal split 150 — not the per-line lookup-map values. -/
theorem service_line_charge_counterexample :
    (create_service_lines_for_claim ⟨[⟨"99213", "d1"⟩, ⟨"99214", "d2"⟩], []⟩
        [] [] ⟨some 300, [⟨some "99213", some 100⟩, ⟨some "99214", some 200⟩]⟩).map
      ServiceLine.charge = [some 150, some 150] ∧
    pyDictGet
        (([⟨some "99213", some 100⟩, ⟨some "99214", some 200⟩] :
          List ExtractedServiceLine).map (fun l => (l.cpt_code, l.charge_amount)))
        (some "99213") = some (some 100) ∧
    (150 : ℚ) ≠ 100 := by
  refine ⟨?_, rfl, by norm_num⟩
  norm_num [create_service_lines_for_claim, round2, bankersRound, ratFloor,
    pyDictGet, pyDictGetS]

/-- C8 amended: the charge written on each service line is the equal split
round2(total_charge_amount / number of validated CPT codes) whenever the
extracted total (defaulted to 0) is positive, codes exist and the rounded
split is positive; the per-line charge looked up in the map built from the
extraction stage's service_lines (defaulting to 0) is only the fallback,
used e.g. whenever the extracted total is not positive. -/
theorem service_line_charge_policy (validated_codes : ValidatedCodes)
    (confidence_scores : List (String × ℚ))
    (diagnosis_pointers : List (String × String)) (extracted : ExtractedData) :
    (0 < round2 ((extracted.total_charge_amount.getD 0) /
        (validated_codes.cpt_codes.length : ℚ)) →
      ¬ validated_codes.cpt_codes.isEmpty →
      0 < extracted.total_charge_amount.getD 0 →
      ∀ l ∈ create_service_lines_for_claim validated_codes confidence_scores
          diagnosis_pointers extracted,
        l.charge = some (round2 ((extracted.total_charge_amount.getD 0) /
          (validated_codes.cpt_codes.length : ℚ)))) ∧
    (extracted.total_charge_amount.getD 0 ≤ 0 →
      ∀ i : Nat, ∀ item : CodeDesc, validated_codes.cpt_codes[i]? = some item →
        ((create_service_lines_for_claim validated_codes confidence_scores
            diagnosis_pointers extracted)[i]?).map ServiceLine.charge =
          some (match pyDictGet
              (extracted.service_lines.map (fun l => (l.cpt_code, l.charge_amount)))
              (some item.code) with
            | some v => v
            | none => some 0)) := by
  constructor
  · intro hd hne htot l hl
    simp only [create_service_lines_for_claim] at hl
    rw [if_pos ⟨hne, htot⟩] at hl
    obtain ⟨item, hitem, hline⟩ := List.mem_map.mp hl
    rw [if_pos hd] at hline
    rw [← hline]
  · intro htot i item hitem
    have hcond : ¬ (¬ validated_codes.cpt_codes.isEmpty ∧
        0 < extracted.total_charge_amount.getD 0) := by
      intro hcon
      exact absurd htot (not_le.mpr hcon.2)
    simp only [create_service_lines_for_claim]
    rw [if_neg hcond, List.getElem?_map, hitem]
    simp

/-- Witness for C8 amended: with no extracted total, the single line's
charge comes from the per-line lookup map. -/
theorem service_line_charge_policy_witness :
    ((create_service_lines_for_claim ⟨[⟨"99213", "d"⟩], []⟩ [] []
        ⟨none, [⟨some "99213", some 100⟩]⟩)[0]?).map ServiceLine.charge =
      some (some 100) := by
  have h := service_line_charge_policy ⟨[⟨"99213", "d"⟩], []⟩ [] []
    ⟨none, [⟨some "99213", some 100⟩]⟩
  have h2 := h.2 (le_refl 0) 0 ⟨"99213", "d"⟩ rfl
  exact h2
